import Mathlib

/-!
Shallow embedding of the OneBot ticket workflow (src/cogs/tickets.py) and the
log-file opener (src/logs.py), with theorems checking the specification's
claims against the code.
-/

namespace OneBot

/-! ### Decimal rendering of naturals

Models Python's `str(n)` / f-string interpolation of an integer: the decimal
digits of `n`.  Defined with structural fuel recursion so that it reduces in
the kernel. -/

/-- Little-endian decimal digit values of `n` (empty for `0`), with fuel. -/
def decDigits : Nat → Nat → List Nat
  | _, 0 => []
  | 0, _ => []
  | fuel + 1, n + 1 => (n + 1) % 10 :: decDigits fuel ((n + 1) / 10)

/-- The character for a single decimal digit value. -/
def digitChar : Nat → Char
  | 0 => '0' | 1 => '1' | 2 => '2' | 3 => '3' | 4 => '4'
  | 5 => '5' | 6 => '6' | 7 => '7' | 8 => '8' | 9 => '9'
  | _ => '*'

/-- Inverse of `digitChar` on decimal digit characters. -/
def unDigit : Char → Nat
  | '0' => 0 | '1' => 1 | '2' => 2 | '3' => 3 | '4' => 4
  | '5' => 5 | '6' => 6 | '7' => 7 | '8' => 8 | '9' => 9
  | _ => 0

/-- Decimal rendering of a natural number, as Python's `str` produces it. -/
def decimal (n : Nat) : String :=
  if n = 0 then "0" else String.mk (((decDigits n n).map digitChar).reverse)

/-- Value of a little-endian list of decimal digit values. -/
def decVal : List Nat → Nat
  | [] => 0
  | d :: ds => d + 10 * decVal ds

/-- Value of a big-endian character list of decimal digits. -/
def dataVal (l : List Char) : Nat :=
  decVal (l.reverse.map unDigit)

theorem decVal_decDigits : ∀ fuel n, n ≤ fuel → decVal (decDigits fuel n) = n := by
  intro fuel
  induction fuel with
  | zero =>
    intro n hn
    interval_cases n
    simp [decDigits, decVal]
  | succ f ih =>
    intro n hn
    match n with
    | 0 => simp [decDigits, decVal]
    | m + 1 =>
      have hdiv : (m + 1) / 10 ≤ f := by
        have := Nat.div_le_self (m + 1) 10
        have h2 : (m + 1) / 10 < m + 1 := Nat.div_lt_self (Nat.succ_pos m) (by omega)
        omega
      simp only [decDigits, decVal, ih _ hdiv]
      omega

theorem decDigits_lt : ∀ fuel n d, d ∈ decDigits fuel n → d < 10 := by
  intro fuel
  induction fuel with
  | zero =>
    intro n d hd
    match n with
    | 0 => simp [decDigits] at hd
    | m + 1 => simp [decDigits] at hd
  | succ f ih =>
    intro n d hd
    match n with
    | 0 => simp [decDigits] at hd
    | m + 1 =>
      simp only [decDigits, List.mem_cons] at hd
      rcases hd with h | h
      · subst h; exact Nat.mod_lt _ (by omega)
      · exact ih _ _ h

theorem unDigit_digitChar : ∀ d < 10, unDigit (digitChar d) = d := by decide

theorem map_unDigit_digitChar (l : List Nat) (hl : ∀ d ∈ l, d < 10) :
    (l.map digitChar).map unDigit = l := by
  induction l with
  | nil => rfl
  | cons d ds ih =>
    simp only [List.map_cons, List.cons.injEq]
    exact ⟨unDigit_digitChar d (hl d (by simp)),
      ih (fun x hx => hl x (by simp [hx]))⟩

theorem dataVal_decimal (n : Nat) : dataVal (decimal n).data = n := by
  by_cases h : n = 0
  · subst h; decide
  · simp only [decimal, h, if_false, dataVal]
    show decVal (((((decDigits n n).map digitChar).reverse).reverse).map unDigit) = n
    rw [List.reverse_reverse, map_unDigit_digitChar _ (fun d hd => decDigits_lt n n d hd),
      decVal_decDigits n n (Nat.le_refl n)]

theorem decimal_injective : Function.Injective decimal := by
  intro m n h
  have : dataVal (decimal m).data = dataVal (decimal n).data := by rw [h]
  rwa [dataVal_decimal, dataVal_decimal] at this

/-! ### Data model (src/cogs/tickets.py, constants.TicketType, the two tables)

A discord member carries many attributes; the ticket code uses only its `id`
(for storage, mentions and the self-report comparison, which discord.py
implements as id equality) and its `colour` (for the embed colour). -/

/-- The two ticket types of `constants.TicketType`. -/
inductive TicketType
  | REPORT
  | SUGGESTION
deriving DecidableEq

/-- `TicketType.name.title()` in Python. -/
def TicketType.nameTitle : TicketType → String
  | .REPORT => "Report"
  | .SUGGESTION => "Suggestion"

/-- `TicketType.name.lower()` in Python. -/
def TicketType.nameLower : TicketType → String
  | .REPORT => "report"
  | .SUGGESTION => "suggestion"

/-- A discord member, reduced to the attributes the ticket code reads. -/
structure Member where
  id : Nat
  colour : Nat
deriving DecidableEq

/-- A row of the `user_report_tickets` table. -/
structure ReportRow where
  ticket_id : Nat
  user_id : Nat
  accused_user_id : Nat
  channel_id : Option Nat
  reason_msg : String
deriving DecidableEq

/-- A row of the `user_suggestion_tickets` table. -/
structure SuggestionRow where
  ticket_id : Nat
  user_id : Nat
  channel_id : Option Nat
  suggestion_msg : String
deriving DecidableEq

/-- The database: the two ticket tables, rows in insertion order. -/
structure Store where
  user_report_tickets : List ReportRow
  user_suggestion_tickets : List SuggestionRow
deriving DecidableEq

/-- The `*args` passed to `create_ticket`: `(reporter, accused, reason)` for a
REPORT, `(user, suggestion)` for a SUGGESTION.  The argument shape determines
the ticket type, as in every call site of the source. -/
inductive TicketArgs
  | report (reporter accused : Member) (reason : String)
  | suggestion (user : Member) (text : String)
deriving DecidableEq

/-- The ticket type an argument tuple belongs to. -/
def argsType : TicketArgs → TicketType
  | .report _ _ _ => .REPORT
  | .suggestion _ _ => .SUGGESTION

/-! ### Store primitives -/

/-- The `ticket_id` column of the report table. -/
def reportIds (s : Store) : List Nat :=
  s.user_report_tickets.map (fun r => r.ticket_id)

/-- The `ticket_id` column of the suggestion table. -/
def suggestionIds (s : Store) : List Nat :=
  s.user_suggestion_tickets.map (fun r => r.ticket_id)

/-- The `ticket_id` column of the table selected by a ticket type. -/
def idsOf : TicketType → Store → List Nat
  | .REPORT => reportIds
  | .SUGGESTION => suggestionIds

/-- The greatest id in a column (`0` when empty). -/
def maxTicketId (ids : List Nat) : Nat :=
  ids.foldr max 0

/-- `SELECT ticket_id FROM t ORDER BY ticket_id DESC LIMIT 1`: the greatest
id of a nonempty table, nothing on an empty one. -/
def lastIdQuery (ids : List Nat) : Option Nat :=
  if ids = [] then none else some (maxTicketId ids)

/-- Modelled from the spec: the database schema is not under src/; per spec
sections 3 and 6 `ticket_id` is an integer primary key assigned by the store
at insert time, auto-incrementing, modelled as one greater than the current
maximum of the partition. -/
def nextTicketId (ids : List Nat) : Nat :=
  maxTicketId ids + 1

/-- `INSERT INTO user_report_tickets (user_id, accused_user_id, channel_id,
reason_msg) VALUES (?, ?, NULL, ?)`. -/
def insertReport (s : Store) (uid accused : Nat) (reason : String) : Store :=
  { s with user_report_tickets := s.user_report_tickets ++
      [⟨nextTicketId (reportIds s), uid, accused, none, reason⟩] }

/-- `INSERT INTO user_suggestion_tickets (user_id, channel_id,
suggestion_msg) VALUES (?, NULL, ?)`. -/
def insertSuggestion (s : Store) (uid : Nat) (text : String) : Store :=
  { s with user_suggestion_tickets := s.user_suggestion_tickets ++
      [⟨nextTicketId (suggestionIds s), uid, none, text⟩] }

/-- The effect of the `UPDATE ... SET channel_id` statement on one report row. -/
def setChanReportRow (chan tid : Nat) (r : ReportRow) : ReportRow :=
  if r.ticket_id = tid then { r with channel_id := some chan } else r

/-- The effect of the `UPDATE ... SET channel_id` statement on one suggestion row. -/
def setChanSuggestionRow (chan tid : Nat) (r : SuggestionRow) : SuggestionRow :=
  if r.ticket_id = tid then { r with channel_id := some chan } else r

/-- `UPDATE {table} SET channel_id = ? WHERE ticket_id = ?`. -/
def set_channel (tt : TicketType) (chan tid : Nat) (s : Store) : Store :=
  match tt with
  | .REPORT =>
    { s with user_report_tickets := s.user_report_tickets.map (setChanReportRow chan tid) }
  | .SUGGESTION =>
    { s with user_suggestion_tickets := s.user_suggestion_tickets.map (setChanSuggestionRow chan tid) }

/-- `SELECT * FROM user_report_tickets WHERE ticket_id = ?`, first row. -/
def find_report_by_id (s : Store) (tid : Nat) : Option ReportRow :=
  s.user_report_tickets.find? (fun r => r.ticket_id == tid)

/-- `SELECT * FROM user_suggestion_tickets WHERE ticket_id = ?`, first row. -/
def find_suggestion_by_id (s : Store) (tid : Nat) : Option SuggestionRow :=
  s.user_suggestion_tickets.find? (fun r => r.ticket_id == tid)

/-- `SELECT channel_id FROM {table} WHERE ticket_id = ?`: `none` when no row
matches (the IndexError path in the source), otherwise the possibly-NULL
`channel_id` of the first matching row. -/
def queryChannelId (tt : TicketType) (tid : Nat) (s : Store) : Option (Option Nat) :=
  match tt with
  | .REPORT => (find_report_by_id s tid).map (fun r => r.channel_id)
  | .SUGGESTION => (find_suggestion_by_id s tid).map (fun r => r.channel_id)

/-- `DELETE FROM {table} WHERE ticket_id = ?`. -/
def deleteTicket (tt : TicketType) (tid : Nat) (s : Store) : Store :=
  match tt with
  | .REPORT =>
    { s with user_report_tickets :=
        s.user_report_tickets.filter (fun r => !(r.ticket_id == tid)) }
  | .SUGGESTION =>
    { s with user_suggestion_tickets :=
        s.user_suggestion_tickets.filter (fun r => !(r.ticket_id == tid)) }

/-! ### Embeds (Tickets.create_ticket_embed) -/

/-- A value rendered into an embed field: either a member mention (discord
renders `member.mention` as a reference to the user id) or plain text. -/
inductive EValue
  | user (id : Nat)
  | text (s : String)
deriving DecidableEq

/-- One field of a discord embed, as `Embed.add_field` appends it. -/
structure EmbedField where
  name : String
  value : EValue
  inline : Bool
deriving DecidableEq

/-- A discord embed, reduced to what `create_ticket_embed` sets. -/
structure Embed where
  colour : Nat
  title : String
  fields : List EmbedField
deriving DecidableEq

/-- `Tickets.create_ticket_embed`: title from the type name and id, then the
typed fields added in source order, all with `inline=False`. -/
def create_ticket_embed (ticket_id : Nat) (args : TicketArgs) : Embed :=
  match args with
  | .report reporter accused reason =>
    { colour := reporter.colour
      title := (argsType args).nameTitle ++ " Ticket #" ++ decimal ticket_id
      fields := [⟨"Accuser", .user reporter.id, false⟩,
                 ⟨"Accusing", .user accused.id, false⟩,
                 ⟨"Reason Given", .text reason, false⟩] }
  | .suggestion user text =>
    { colour := user.colour
      title := (argsType args).nameTitle ++ " Ticket #" ++ decimal ticket_id
      fields := [⟨"Suggestion From", .user user.id, false⟩,
                 ⟨"Suggestion/Feature Request", .text text, false⟩] }

/-- `Tickets.create_ticket_channel` name: `f"{pfx}-ticket-{ticket_id}"`. -/
def ticket_channel_name (pfx : String) (ticket_id : Nat) : String :=
  pfx ++ "-ticket-" ++ decimal ticket_id

/-! ### Workflow traces

Every external interaction of the two workflow entry points, in execution
order: database statements, channel provisioning and teardown, and messages
sent to the user or into the ticket channel. -/

/-- One external interaction of the workflow. -/
inductive Step
  | dbInsertReport (uid accused : Nat) (reason : String)
  | dbInsertSuggestion (uid : Nat) (text : String)
  | dbSelectLastId (tt : TicketType)
  | dbSetChannel (tt : TicketType) (chan tid : Nat)
  | dbSelectChannelId (tt : TicketType) (tid : Nat)
  | dbDeleteTicket (tt : TicketType) (tid : Nat)
  | channelCreate (name : String)
  | channelDelete (chan : Option Nat)
  | sendEmbed (e : Embed)
  | userMessage (msg : String)
deriving DecidableEq

/-- Is this step an insert, update or delete against a ticket table? -/
def Step.isStoreWrite : Step → Bool
  | .dbInsertReport _ _ _ => true
  | .dbInsertSuggestion _ _ => true
  | .dbSetChannel _ _ _ => true
  | .dbDeleteTicket _ _ => true
  | _ => false

/-- Is this step the provisioning of a channel? -/
def Step.isChannelCreate : Step → Bool
  | .channelCreate _ => true
  | _ => false

/-- Is this step the teardown of a channel? -/
def Step.isChannelDelete : Step → Bool
  | .channelDelete _ => true
  | _ => false

/-- Is this step the row delete statement? -/
def Step.isDbDelete : Step → Bool
  | .dbDeleteTicket _ _ => true
  | _ => false

/-- A step satisfying `p` occurs strictly before one satisfying `q`. -/
def existsBefore (p q : Step → Bool) : List Step → Bool
  | [] => false
  | st :: tr => (p st && tr.any q) || existsBefore p q tr

/-- Outcome of `Tickets.create_ticket` as the user observes it.  `error` is
the uncaught-IndexError path of the last-id query on an empty table. -/
inductive CreateOutcome
  | ok (ticket_id : Nat)
  | rejected
  | error
deriving DecidableEq

/-- Outcome of `Tickets.close_ticket` as the user observes it. -/
inductive CloseOutcome
  | ok
  | notFound
deriving DecidableEq

/-- The self-report rebuff sent by `create_ticket`. -/
def selfReportMsg : String := "You cannot report yourself\n  ╰(ಠ ͟ʖ ಠ)╯"

/-- The rebuff sent by `close_ticket` when no row matches. -/
def noTicketsMsg (tt : TicketType) (tid : Nat) : String :=
  "There are no " ++ tt.nameLower ++ " tickets with the id: " ++ decimal tid

/-- The confirmation sent by `close_ticket` on success. -/
def closedMsg : String := "Ticket closed. The ticket channel has also been deleted."

/-- `Tickets.create_ticket`.  `interactionUser` is `interaction.user`;
`chanId` is the id discord assigns to the created text channel (an external
input).  The self-report guard compares `args[1] == interaction.user`, which
discord.py evaluates as id equality.  Returns the new store, the ordered
trace of external interactions, and the observable outcome. -/
def create_ticket (interactionUser : Member) (args : TicketArgs) (chanId : Nat)
    (s : Store) : Store × List Step × CreateOutcome :=
  match args with
  | .report reporter accused reason =>
    if accused.id = interactionUser.id then
      (s, [.userMessage selfReportMsg], .rejected)
    else
      let s1 := insertReport s reporter.id accused.id reason
      match lastIdQuery (reportIds s1) with
      | none =>
        (s1, [.dbInsertReport reporter.id accused.id reason, .dbSelectLastId .REPORT], .error)
      | some tid =>
        let s2 := set_channel .REPORT chanId tid s1
        (s2, [.dbInsertReport reporter.id accused.id reason,
              .dbSelectLastId .REPORT,
              .channelCreate (ticket_channel_name (TicketType.nameLower .REPORT) tid),
              .dbSetChannel .REPORT chanId tid,
              .sendEmbed (create_ticket_embed tid args)], .ok tid)
  | .suggestion user text =>
    let s1 := insertSuggestion s user.id text
    match lastIdQuery (suggestionIds s1) with
    | none =>
      (s1, [.dbInsertSuggestion user.id text, .dbSelectLastId .SUGGESTION], .error)
    | some tid =>
      let s2 := set_channel .SUGGESTION chanId tid s1
      (s2, [.dbInsertSuggestion user.id text,
            .dbSelectLastId .SUGGESTION,
            .channelCreate (ticket_channel_name (TicketType.nameLower .SUGGESTION) tid),
            .dbSetChannel .SUGGESTION chanId tid,
            .sendEmbed (create_ticket_embed tid args)], .ok tid)

/-- `Tickets.close_ticket`: look up the channel id; on a miss report the
rebuff and stop; otherwise delete the row first, then delete the channel,
then confirm. -/
def close_ticket (tt : TicketType) (tid : Nat) (s : Store) :
    Store × List Step × CloseOutcome :=
  match queryChannelId tt tid s with
  | none =>
    (s, [.dbSelectChannelId tt tid, .userMessage (noTicketsMsg tt tid)], .notFound)
  | some chan =>
    (deleteTicket tt tid s,
     [.dbSelectChannelId tt tid, .dbDeleteTicket tt tid,
      .channelDelete chan, .userMessage closedMsg], .ok)

/-- Whether `create_ticket` gets past the self-report guard. -/
def guardPasses (u : Member) : TicketArgs → Prop
  | .report _ accused _ => accused.id ≠ u.id
  | .suggestion _ _ => True

instance (u : Member) (args : TicketArgs) : Decidable (guardPasses u args) := by
  cases args <;> simp [guardPasses] <;> infer_instance

/-- Sequential ticket creations: each pair is the `*args` of one call and the
channel id discord assigns for it.  Collects the outcomes in order. -/
def create_many (u : Member) (ps : List (TicketArgs × Nat)) (s : Store) :
    Store × List CreateOutcome :=
  match ps with
  | [] => (s, [])
  | (args, chan) :: rest =>
    let r := create_ticket u args chan s
    let rr := create_many u rest r.1
    (rr.1, r.2.2 :: rr.2)

/-! ### Log file opener (src/logs.py, _open_file)

The filesystem is modelled as the list of filenames already present in the
logs directory; opening with mode `x` succeeds exactly when the name is not
in that list. -/

/-- The candidate filename generator of `_open_file`:
`f"{timestamp}.txt"` for `i = 0`, `f"{timestamp}_({i}).txt"` after. -/
def logFilename (timestamp : String) (i : Nat) : String :=
  if i = 0 then timestamp ++ ".txt"
  else timestamp ++ "_(" ++ decimal i ++ ").txt"

/-- The probe loop of `_open_file`: try `logFilename timestamp i`, skip it if
it already exists, move to `i + 1`.  The Python loop is unbounded; fuel makes
the model total, and the totality theorem shows the fuel used by
`_open_file` always suffices. -/
def openFileLoop (existing : List String) (timestamp : String) :
    Nat → Nat → Option String
  | 0, _ => none
  | fuel + 1, i =>
    let name := logFilename timestamp i
    if name ∈ existing then openFileLoop existing timestamp fuel (i + 1)
    else some name

/-- `_open_file`: the first candidate filename that does not already exist. -/
def _open_file (existing : List String) (timestamp : String) : Option String :=
  openFileLoop existing timestamp (existing.length + 1) 0

/-! ### Helper lemmas about the store primitives -/

theorem mem_le_maxTicketId {ids : List Nat} {x : Nat} (hx : x ∈ ids) :
    x ≤ maxTicketId ids := by
  induction ids with
  | nil => simp at hx
  | cons y ys ih =>
    simp only [maxTicketId, List.foldr_cons] at *
    rcases List.mem_cons.mp hx with h | h
    · omega
    · have := ih h; omega

theorem maxTicketId_append (ids : List Nat) (a : Nat) :
    maxTicketId (ids ++ [a]) = max (maxTicketId ids) a := by
  induction ids with
  | nil => simp [maxTicketId]
  | cons y ys ih =>
    simp only [maxTicketId, List.cons_append, List.foldr_cons] at *
    rw [ih]
    exact (Nat.max_assoc _ _ _).symm

theorem lastIdQuery_insert (ids : List Nat) :
    lastIdQuery (ids ++ [nextTicketId ids]) = some (nextTicketId ids) := by
  simp only [lastIdQuery, nextTicketId, maxTicketId_append]
  rw [if_neg (by simp)]
  congr 1
  exact Nat.max_eq_right (Nat.le_succ _)

theorem ticket_id_setChanReportRow (chan tid : Nat) (r : ReportRow) :
    (setChanReportRow chan tid r).ticket_id = r.ticket_id := by
  unfold setChanReportRow
  split <;> rfl

theorem ticket_id_setChanSuggestionRow (chan tid : Nat) (r : SuggestionRow) :
    (setChanSuggestionRow chan tid r).ticket_id = r.ticket_id := by
  unfold setChanSuggestionRow
  split <;> rfl

theorem reportIds_set_channel (chan tid : Nat) (s : Store) :
    reportIds (set_channel .REPORT chan tid s) = reportIds s := by
  simp [reportIds, set_channel, List.map_map, Function.comp,
    ticket_id_setChanReportRow]

theorem suggestionIds_set_channel (chan tid : Nat) (s : Store) :
    suggestionIds (set_channel .SUGGESTION chan tid s) = suggestionIds s := by
  simp [suggestionIds, set_channel, List.map_map, Function.comp,
    ticket_id_setChanSuggestionRow]

theorem reportIds_insertReport (s : Store) (uid accused : Nat) (reason : String) :
    reportIds (insertReport s uid accused reason) =
      reportIds s ++ [nextTicketId (reportIds s)] := by
  simp [reportIds, insertReport]

theorem suggestionIds_insertSuggestion (s : Store) (uid : Nat) (text : String) :
    suggestionIds (insertSuggestion s uid text) =
      suggestionIds s ++ [nextTicketId (suggestionIds s)] := by
  simp [suggestionIds, insertSuggestion]

theorem find?_append_left_none {α} (p : α → Bool) (l1 l2 : List α)
    (h : ∀ x ∈ l1, p x = false) : (l1 ++ l2).find? p = l2.find? p := by
  induction l1 with
  | nil => rfl
  | cons x xs ih =>
    have hx := h x (by simp)
    simp only [List.cons_append, List.find?, hx]
    exact ih (fun y hy => h y (by simp [hy]))

theorem find?_filter_not {α} (p : α → Bool) (l : List α) :
    (l.filter (fun x => !(p x))).find? p = none := by
  induction l with
  | nil => rfl
  | cons x xs ih =>
    by_cases hx : p x
    · simp only [List.filter, hx, Bool.not_true, ih]
    · have hx' : p x = false := by simpa using hx
      simp only [List.filter, hx', Bool.not_false, List.find?, ih]

/-- The observable effects of `create_ticket` when the guard passes: the
outcome is `ok` with the id assigned by the insert, and the type's partition
grows by exactly that id. -/
theorem create_ticket_ok (u : Member) (args : TicketArgs) (chan : Nat) (s : Store)
    (hg : guardPasses u args) :
    (create_ticket u args chan s).2.2 = .ok (nextTicketId (idsOf (argsType args) s)) ∧
    idsOf (argsType args) (create_ticket u args chan s).1 =
      idsOf (argsType args) s ++ [nextTicketId (idsOf (argsType args) s)] := by
  match args with
  | .report reporter accused reason =>
    have hne : ¬ accused.id = u.id := hg
    simp only [create_ticket, if_neg hne, argsType, idsOf]
    rw [reportIds_insertReport, lastIdQuery_insert]
    exact ⟨rfl, by rw [reportIds_set_channel, reportIds_insertReport]⟩
  | .suggestion user text =>
    simp only [create_ticket, argsType, idsOf]
    rw [suggestionIds_insertSuggestion, lastIdQuery_insert]
    exact ⟨rfl, by rw [suggestionIds_set_channel, suggestionIds_insertSuggestion]⟩

/-! ### Claim theorems -/

/-- C1: a REPORT creation whose accused equals the reporting user returns the
self-report rebuff, leaves the store untouched, executes no insert, update or
delete against either ticket table, and provisions no channel. -/
theorem c1_self_report_rejected_no_writes (u accused : Member) (reason : String)
    (chan : Nat) (s : Store) (h : accused.id = u.id) :
    (create_ticket u (.report u accused reason) chan s).1 = s ∧
    (create_ticket u (.report u accused reason) chan s).2.2 = .rejected ∧
    (create_ticket u (.report u accused reason) chan s).2.1.all
      (fun st => !st.isStoreWrite && !st.isChannelCreate) = true ∧
    (create_ticket u (.report u accused reason) chan s).2.1 =
      [.userMessage selfReportMsg] := by
  simp [create_ticket, h, Step.isStoreWrite, Step.isChannelCreate]

theorem c1_witness :
    (create_ticket ⟨1, 0⟩ (.report ⟨1, 0⟩ ⟨1, 5⟩ "x") 7 ⟨[], []⟩).1 = (⟨[], []⟩ : Store) ∧
    (create_ticket ⟨1, 0⟩ (.report ⟨1, 0⟩ ⟨1, 5⟩ "x") 7 ⟨[], []⟩).2.2 = .rejected ∧
    (create_ticket ⟨1, 0⟩ (.report ⟨1, 0⟩ ⟨1, 5⟩ "x") 7 ⟨[], []⟩).2.1.all
      (fun st => !st.isStoreWrite && !st.isChannelCreate) = true ∧
    (create_ticket ⟨1, 0⟩ (.report ⟨1, 0⟩ ⟨1, 5⟩ "x") 7 ⟨[], []⟩).2.1 =
      [.userMessage selfReportMsg] :=
  c1_self_report_rejected_no_writes ⟨1, 0⟩ ⟨1, 5⟩ "x" 7 ⟨[], []⟩ rfl

/-- C5: closing an id absent from the chosen type's partition reports the
no-ticket rebuff, leaves the store unchanged, executes no delete statement
and tears down no channel. -/
theorem c5_close_missing_no_effects (tt : TicketType) (tid : Nat) (s : Store)
    (h : queryChannelId tt tid s = none) :
    (close_ticket tt tid s).1 = s ∧
    (close_ticket tt tid s).2.2 = .notFound ∧
    (close_ticket tt tid s).2.1.all
      (fun st => !st.isStoreWrite && !st.isChannelDelete) = true ∧
    Step.userMessage (noTicketsMsg tt tid) ∈ (close_ticket tt tid s).2.1 := by
  simp [close_ticket, h, Step.isStoreWrite, Step.isChannelDelete]

theorem c5_witness :
    (close_ticket .REPORT 999 ⟨[], []⟩).1 = (⟨[], []⟩ : Store) ∧
    (close_ticket .REPORT 999 ⟨[], []⟩).2.2 = .notFound ∧
    (close_ticket .REPORT 999 ⟨[], []⟩).2.1.all
      (fun st => !st.isStoreWrite && !st.isChannelDelete) = true ∧
    Step.userMessage (noTicketsMsg .REPORT 999) ∈ (close_ticket .REPORT 999 ⟨[], []⟩).2.1 :=
  c5_close_missing_no_effects .REPORT 999 ⟨[], []⟩ rfl

/-- C7: creating a SUGGESTION ticket for user 42 with body "add dark mode" on
an empty store yields id 1, a channel named `suggestion-ticket-1`, and an
embed whose fields are exactly `Suggestion From: user 42` then
`Suggestion/Feature Request: add dark mode`. -/
theorem c7_suggestion_scenario (colour chan : Nat) :
    (create_ticket ⟨42, colour⟩ (.suggestion ⟨42, colour⟩ "add dark mode") chan
        ⟨[], []⟩).2.2 = .ok 1 ∧
    Step.channelCreate "suggestion-ticket-1" ∈
      (create_ticket ⟨42, colour⟩ (.suggestion ⟨42, colour⟩ "add dark mode") chan
        ⟨[], []⟩).2.1 ∧
    Step.sendEmbed ⟨colour, "Suggestion Ticket #1",
        [⟨"Suggestion From", .user 42, false⟩,
         ⟨"Suggestion/Feature Request", .text "add dark mode", false⟩]⟩ ∈
      (create_ticket ⟨42, colour⟩ (.suggestion ⟨42, colour⟩ "add dark mode") chan
        ⟨[], []⟩).2.1 :=
  ⟨rfl, .tail _ (.tail _ (.head _)), .tail _ (.tail _ (.tail _ (.tail _ (.head _))))⟩

/-- C8: the embed renderer emits its fields in a fixed order: accuser, then
accused, then reason for REPORT tickets; submitter, then suggestion text for
SUGGESTION tickets. -/
theorem c8_embed_field_order (tid : Nat) (a b : Member) (reason : String)
    (u : Member) (text : String) :
    (create_ticket_embed tid (.report a b reason)).fields =
      [⟨"Accuser", .user a.id, false⟩, ⟨"Accusing", .user b.id, false⟩,
       ⟨"Reason Given", .text reason, false⟩] ∧
    (create_ticket_embed tid (.suggestion u text)).fields =
      [⟨"Suggestion From", .user u.id, false⟩,
       ⟨"Suggestion/Feature Request", .text text, false⟩] :=
  ⟨rfl, rfl⟩

/-- C2 counterexample: on a store holding report ticket 1, the close trace
contains both the row delete and the channel teardown, but no channel
teardown occurs before the row delete — the code deletes the row first. -/
theorem c2_counterexample :
    existsBefore Step.isChannelDelete Step.isDbDelete
      (close_ticket .REPORT 1 ⟨[⟨1, 2, 3, some 44, "r"⟩], []⟩).2.1 = false ∧
    (close_ticket .REPORT 1 ⟨[⟨1, 2, 3, some 44, "r"⟩], []⟩).2.1.any
      Step.isDbDelete = true ∧
    (close_ticket .REPORT 1 ⟨[⟨1, 2, 3, some 44, "r"⟩], []⟩).2.1.any
      Step.isChannelDelete = true := by
  decide

/-- C2 amended: in `close_ticket`, for every existing ticket the database row
delete is performed before the external channel teardown, so if teardown
fails the row has already been deleted. -/
theorem c2_amended_delete_before_teardown (tt : TicketType) (tid : Nat)
    (s : Store) (chan : Option Nat) (h : queryChannelId tt tid s = some chan) :
    existsBefore Step.isDbDelete Step.isChannelDelete
      (close_ticket tt tid s).2.1 = true ∧
    (close_ticket tt tid s).2.1.any Step.isDbDelete = true ∧
    (close_ticket tt tid s).2.1.any Step.isChannelDelete = true := by
  simp [close_ticket, h, existsBefore, Step.isDbDelete, Step.isChannelDelete]

theorem c2_witness :
    existsBefore Step.isDbDelete Step.isChannelDelete
      (close_ticket .REPORT 1 ⟨[⟨1, 2, 3, some 44, "r"⟩], []⟩).2.1 = true ∧
    (close_ticket .REPORT 1 ⟨[⟨1, 2, 3, some 44, "r"⟩], []⟩).2.1.any
      Step.isDbDelete = true ∧
    (close_ticket .REPORT 1 ⟨[⟨1, 2, 3, some 44, "r"⟩], []⟩).2.1.any
      Step.isChannelDelete = true :=
  c2_amended_delete_before_teardown .REPORT 1 ⟨[⟨1, 2, 3, some 44, "r"⟩], []⟩
    (some 44) rfl

/-- C3: the id returned by the last-id query right after an insert is the id
of the row just inserted, and N sequential guard-passing creations into one
type partition return the consecutive ids starting one past the partition's
maximum — strictly increasing with no gaps. -/
theorem c3_sequential_ids_monotone (u : Member) (t : TicketType)
    (ps : List (TicketArgs × Nat)) (s : Store)
    (hty : ∀ p ∈ ps, argsType p.1 = t) (hg : ∀ p ∈ ps, guardPasses u p.1) :
    (∀ ids : List Nat, lastIdQuery (ids ++ [nextTicketId ids]) =
      some (nextTicketId ids)) ∧
    (create_many u ps s).2 =
      (List.range' (nextTicketId (idsOf t s)) ps.length).map .ok := by
  refine ⟨lastIdQuery_insert, ?_⟩
  induction ps generalizing s with
  | nil => rfl
  | cons p rest ih =>
    obtain ⟨args, chan⟩ := p
    have hty0 : argsType args = t := hty (args, chan) (by simp)
    have hg0 : guardPasses u args := hg (args, chan) (by simp)
    obtain ⟨hout, hids⟩ := create_ticket_ok u args chan s hg0
    rw [hty0] at hout hids
    simp only [create_many, hout, List.length_cons, List.range'_succ, List.map_cons]
    have hrest := ih ((create_ticket u args chan s).1)
      (fun q hq => hty q (by simp [hq])) (fun q hq => hg q (by simp [hq]))
    have hnext : nextTicketId (idsOf t s ++ [nextTicketId (idsOf t s)]) =
        nextTicketId (idsOf t s) + 1 := by
      have := Nat.max_eq_right (Nat.le_succ (maxTicketId (idsOf t s)))
      simp only [nextTicketId, maxTicketId_append]
      omega
    rw [hrest, hids, hnext]

theorem c3_witness :
    (∀ ids : List Nat, lastIdQuery (ids ++ [nextTicketId ids]) =
      some (nextTicketId ids)) ∧
    (create_many ⟨1, 0⟩
      [(.suggestion ⟨1, 0⟩ "a", 5), (.suggestion ⟨2, 0⟩ "b", 6),
       (.suggestion ⟨3, 0⟩ "c", 7)] ⟨[], []⟩).2 =
      (List.range' (nextTicketId (idsOf .SUGGESTION ⟨[], []⟩)) 3).map .ok :=
  c3_sequential_ids_monotone ⟨1, 0⟩ .SUGGESTION
    [(.suggestion ⟨1, 0⟩ "a", 5), (.suggestion ⟨2, 0⟩ "b", 6),
     (.suggestion ⟨3, 0⟩ "c", 7)] ⟨[], []⟩
    (by intro p hp; fin_cases hp <;> rfl)
    (by intro p hp; fin_cases hp <;> trivial)

/-- C4: after a creation on which insert, provisioning and update all run,
finding the ticket by the returned id yields a row whose channel_id is the id
of the channel provisioning returned. -/
theorem c4_find_after_create (u : Member) (args : TicketArgs) (chan : Nat)
    (s : Store) (hg : guardPasses u args) :
    ∃ tid, (create_ticket u args chan s).2.2 = .ok tid ∧
      queryChannelId (argsType args) tid (create_ticket u args chan s).1 =
        some (some chan) := by
  match args with
  | .report reporter accused reason =>
    have hne : ¬ accused.id = u.id := hg
    have hq : lastIdQuery (reportIds (insertReport s reporter.id accused.id reason)) =
        some (nextTicketId (reportIds s)) := by
      rw [reportIds_insertReport, lastIdQuery_insert]
    refine ⟨nextTicketId (reportIds s), ?_, ?_⟩
    · simp only [create_ticket, if_neg hne, hq]
    · simp only [create_ticket, if_neg hne, hq]
      simp only [argsType, queryChannelId, find_report_by_id, set_channel,
        insertReport, List.map_append]
      rw [find?_append_left_none]
      · simp [setChanReportRow, List.find?]
      · intro x hx
        obtain ⟨r, hr, rfl⟩ := List.mem_map.mp hx
        have hle : r.ticket_id ≤ maxTicketId (reportIds s) :=
          mem_le_maxTicketId (List.mem_map_of_mem (fun r => r.ticket_id) hr)
        simp only [ticket_id_setChanReportRow, nextTicketId, beq_eq_false_iff_ne, ne_eq]
        omega
  | .suggestion user text =>
    have hq : lastIdQuery (suggestionIds (insertSuggestion s user.id text)) =
        some (nextTicketId (suggestionIds s)) := by
      rw [suggestionIds_insertSuggestion, lastIdQuery_insert]
    refine ⟨nextTicketId (suggestionIds s), ?_, ?_⟩
    · simp only [create_ticket, hq]
    · simp only [create_ticket, hq]
      simp only [argsType, queryChannelId, find_suggestion_by_id, set_channel,
        insertSuggestion, List.map_append]
      rw [find?_append_left_none]
      · simp [setChanSuggestionRow, List.find?]
      · intro x hx
        obtain ⟨r, hr, rfl⟩ := List.mem_map.mp hx
        have hle : r.ticket_id ≤ maxTicketId (suggestionIds s) :=
          mem_le_maxTicketId (List.mem_map_of_mem (fun r => r.ticket_id) hr)
        simp only [ticket_id_setChanSuggestionRow, nextTicketId, beq_eq_false_iff_ne, ne_eq]
        omega

theorem c4_witness :
    ∃ tid, (create_ticket ⟨1, 0⟩ (.suggestion ⟨2, 0⟩ "hi") 9 ⟨[], []⟩).2.2 = .ok tid ∧
      queryChannelId (argsType (.suggestion ⟨2, 0⟩ "hi")) tid
        (create_ticket ⟨1, 0⟩ (.suggestion ⟨2, 0⟩ "hi") 9 ⟨[], []⟩).1 =
        some (some 9) :=
  c4_find_after_create ⟨1, 0⟩ (.suggestion ⟨2, 0⟩ "hi") 9 ⟨[], []⟩ trivial

/-- C6: after `close_ticket` succeeds, finding the same id in the same type's
partition misses: the row has been removed. -/
theorem c6_close_then_find (tt : TicketType) (tid : Nat) (s : Store)
    (h : (close_ticket tt tid s).2.2 = .ok) :
    queryChannelId tt tid (close_ticket tt tid s).1 = none := by
  match hq : queryChannelId tt tid s with
  | none => simp [close_ticket, hq] at h
  | some chan =>
    simp only [close_ticket, hq]
    cases tt
    · simp only [queryChannelId, find_report_by_id, deleteTicket]
      rw [find?_filter_not]
      rfl
    · simp only [queryChannelId, find_suggestion_by_id, deleteTicket]
      rw [find?_filter_not]
      rfl

theorem c6_witness :
    queryChannelId .REPORT 1
      (close_ticket .REPORT 1 ⟨[⟨1, 2, 3, some 44, "r"⟩], []⟩).1 = none :=
  c6_close_then_find .REPORT 1 ⟨[⟨1, 2, 3, some 44, "r"⟩], []⟩ rfl

/-- C9: the set-channel update touches only the targeted partition, keeps
every row count, leaves every row with a different ticket_id unchanged, and
on rows with the matching ticket_id changes only the channel_id column,
setting it to the provisioned channel. -/
theorem c9_set_channel_frame (tt : TicketType) (tid chan : Nat) (s : Store) :
    ((tt = .REPORT → (set_channel tt chan tid s).user_suggestion_tickets =
        s.user_suggestion_tickets) ∧
     (tt = .SUGGESTION → (set_channel tt chan tid s).user_report_tickets =
        s.user_report_tickets)) ∧
    ((set_channel tt chan tid s).user_report_tickets.length =
        s.user_report_tickets.length ∧
     (set_channel tt chan tid s).user_suggestion_tickets.length =
        s.user_suggestion_tickets.length) ∧
    (∀ i r r', s.user_report_tickets.get? i = some r →
       (set_channel tt chan tid s).user_report_tickets.get? i = some r' →
       r'.ticket_id = r.ticket_id ∧ r'.user_id = r.user_id ∧
       r'.accused_user_id = r.accused_user_id ∧ r'.reason_msg = r.reason_msg ∧
       (r.ticket_id ≠ tid → r' = r) ∧
       (tt = .REPORT → r.ticket_id = tid → r'.channel_id = some chan)) ∧
    (∀ i r r', s.user_suggestion_tickets.get? i = some r →
       (set_channel tt chan tid s).user_suggestion_tickets.get? i = some r' →
       r'.ticket_id = r.ticket_id ∧ r'.user_id = r.user_id ∧
       r'.suggestion_msg = r.suggestion_msg ∧
       (r.ticket_id ≠ tid → r' = r) ∧
       (tt = .SUGGESTION → r.ticket_id = tid → r'.channel_id = some chan)) := by
  cases tt
  · refine ⟨⟨fun _ => rfl, fun h => nomatch h⟩,
      ⟨by simp [set_channel], rfl⟩, ?_, ?_⟩
    · intro i r r' hr hr'
      simp only [set_channel, List.get?_map, hr, Option.map_some] at hr'
      obtain rfl : setChanReportRow chan tid r = r' := by injection hr'
      unfold setChanReportRow
      split
      · next heq =>
        exact ⟨by simp [heq], rfl, rfl, rfl, fun hne => absurd heq hne, fun _ _ => rfl⟩
      · next hne =>
        exact ⟨rfl, rfl, rfl, rfl, fun _ => rfl, fun _ heq => absurd heq hne⟩
    · intro i r r' hr hr'
      rw [show (set_channel .REPORT chan tid s).user_suggestion_tickets =
          s.user_suggestion_tickets from rfl, hr] at hr'
      obtain rfl : r = r' := by injection hr'
      exact ⟨rfl, rfl, rfl, fun _ => rfl, fun h => nomatch h⟩
  · refine ⟨?_, ?_, ?_, ?_⟩
    · exact ⟨fun h => (nomatch h), fun _ => rfl⟩
    · exact ⟨rfl, by simp [set_channel]⟩
    · intro i r r' hr hr'
      rw [show (set_channel .SUGGESTION chan tid s).user_report_tickets =
          s.user_report_tickets from rfl, hr] at hr'
      obtain rfl : r = r' := by injection hr'
      exact ⟨rfl, rfl, rfl, rfl, fun _ => rfl, fun h => nomatch h⟩
    · intro i r r' hr hr'
      simp only [set_channel, List.get?_map, hr, Option.map_some] at hr'
      obtain rfl : setChanSuggestionRow chan tid r = r' := by injection hr'
      unfold setChanSuggestionRow
      split
      · next heq =>
        exact ⟨by simp [heq], rfl, rfl, fun hne => absurd heq hne, fun _ _ => rfl⟩
      · next hne =>
        exact ⟨rfl, rfl, rfl, fun _ => rfl, fun _ heq => absurd heq hne⟩

theorem c9_witness :
    ∃ r' : ReportRow,
      (set_channel .REPORT 77 1 ⟨[⟨1, 5, 6, none, "r"⟩], []⟩).user_report_tickets.get? 0 =
        some r' ∧
      r'.ticket_id = 1 ∧ r'.user_id = 5 ∧ r'.accused_user_id = 6 ∧
      r'.reason_msg = "r" ∧ r'.channel_id = some 77 := by
  obtain ⟨-, -, hrep, -⟩ :=
    c9_set_channel_frame .REPORT 1 77 ⟨[⟨1, 5, 6, none, "r"⟩], []⟩
  have h := hrep 0 ⟨1, 5, 6, none, "r"⟩ ⟨1, 5, 6, some 77, "r"⟩ rfl rfl
  exact ⟨⟨1, 5, 6, some 77, "r"⟩, rfl, h.1, h.2.1, h.2.2.1, h.2.2.2.1,
    h.2.2.2.2.2 rfl rfl⟩

/-! ### Lemmas for the log-file opener -/

theorem logFilename_injective (ts : String) : Function.Injective (logFilename ts) := by
  have e1 : String.data ".txt" = ['.', 't', 'x', 't'] := rfl
  have e2 : String.data "_(" = ['_', '('] := rfl
  have e3 : String.data ").txt" = [')', '.', 't', 'x', 't'] := rfl
  intro i j h
  unfold logFilename at h
  by_cases hi : i = 0 <;> by_cases hj : j = 0
  · rw [hi, hj]
  · exfalso
    rw [if_pos hi, if_neg hj] at h
    have hd := congrArg String.data h
    simp only [String.data_append, List.append_assoc, e1, e2, e3] at hd
    have h2 := List.append_cancel_left hd
    simp only [List.cons_append, List.nil_append] at h2
    injection h2 with hhd _
    exact absurd hhd (by decide)
  · exfalso
    rw [if_neg hi, if_pos hj] at h
    have hd := congrArg String.data h
    simp only [String.data_append, List.append_assoc, e1, e2, e3] at hd
    have h2 := List.append_cancel_left hd
    simp only [List.cons_append, List.nil_append] at h2
    injection h2 with hhd _
    exact absurd hhd (by decide)
  · rw [if_neg hi, if_neg hj] at h
    have hd := congrArg String.data h
    simp only [String.data_append, List.append_assoc] at hd
    have h2 := List.append_cancel_left hd
    have h3 := List.append_cancel_left h2
    have h4 := List.append_cancel_right h3
    have h5 : dataVal (decimal i).data = dataVal (decimal j).data := by rw [h4]
    rwa [dataVal_decimal, dataVal_decimal] at h5

/-- Pigeonhole: among the first `n + 1` candidate names, where `n` is the
number of existing files, at least one is free. -/
theorem exists_free_index (existing : List String) (ts : String) :
    ∃ i, i ≤ existing.length ∧ logFilename ts i ∉ existing := by
  by_contra hc
  push_neg at hc
  have hmem : ∀ i : Fin (existing.length + 1),
      logFilename ts i.val ∈ existing.toFinset :=
    fun i => List.mem_toFinset.mpr (hc i.val (Nat.lt_succ_iff.mp i.isLt))
  have hinj : Set.InjOn (fun i : Fin (existing.length + 1) => logFilename ts i.val)
      (Finset.univ : Finset (Fin (existing.length + 1))) :=
    fun a _ b _ hab => Fin.ext (logFilename_injective ts hab)
  have hcard := Finset.card_le_card_of_injOn _ (fun i _ => hmem i) hinj
  rw [Finset.card_univ, Fintype.card_fin] at hcard
  have hle := existing.toFinset_card_le
  omega

/-- The probe loop returns the first free candidate at or after `base`,
provided some candidate within its fuel is free. -/
theorem openFileLoop_finds (existing : List String) (ts : String) :
    ∀ fuel base, (∃ k, k < fuel ∧ logFilename ts (base + k) ∉ existing) →
    ∃ k, k < fuel ∧
      openFileLoop existing ts fuel base = some (logFilename ts (base + k)) ∧
      logFilename ts (base + k) ∉ existing ∧
      ∀ j, j < k → logFilename ts (base + j) ∈ existing := by
  intro fuel
  induction fuel with
  | zero =>
    rintro base ⟨k, hk, -⟩
    omega
  | succ f ih =>
    rintro base ⟨k, hk, hfree⟩
    by_cases hb : logFilename ts base ∈ existing
    · have hk0 : k ≠ 0 := by
        rintro rfl
        rw [Nat.add_zero] at hfree
        exact hfree hb
      obtain ⟨k1, rfl⟩ : ∃ k1, k = k1 + 1 := ⟨k - 1, by omega⟩
      have hfree1 : logFilename ts (base + 1 + k1) ∉ existing := by
        have heq1 : base + 1 + k1 = base + (k1 + 1) := by omega
        rwa [heq1]
      obtain ⟨k2, hk2, heq, hfree2, hall⟩ := ih (base + 1) ⟨k1, by omega, hfree1⟩
      refine ⟨k2 + 1, by omega, ?_, ?_, ?_⟩
      · have heq2 : base + (k2 + 1) = base + 1 + k2 := by omega
        rw [heq2]
        simpa [openFileLoop, hb] using heq
      · have heq2 : base + (k2 + 1) = base + 1 + k2 := by omega
        rwa [heq2]
      · intro j hj
        match j with
        | 0 => simpa using hb
        | j1 + 1 =>
          have heq3 : base + (j1 + 1) = base + 1 + j1 := by omega
          rw [heq3]
          exact hall j1 (by omega)
    · exact ⟨0, by omega, by simp [openFileLoop, hb], by simpa using hb,
        fun j hj => absurd hj (Nat.not_lt_zero j)⟩

/-- C10: for every state of the logs directory, `_open_file` creates a file
whose name did not previously exist, probing the base timestamp name first
and then the numbered suffixes in order, stopping at the first free name. -/
theorem c10_open_file_fresh (existing : List String) (ts : String) :
    ∃ i, _open_file existing ts = some (logFilename ts i) ∧
      logFilename ts i ∉ existing ∧
      ∀ j, j < i → logFilename ts j ∈ existing := by
  obtain ⟨i0, hle, hfree⟩ := exists_free_index existing ts
  obtain ⟨k, hk, heq, hfreek, hall⟩ := openFileLoop_finds existing ts
    (existing.length + 1) 0 ⟨i0, by omega, by simpa using hfree⟩
  refine ⟨k, ?_, ?_, ?_⟩
  · simpa using heq
  · simpa using hfreek
  · intro j hj
    simpa using hall j hj

end OneBot
